import Mathlib

set_option maxRecDepth 8000

/-!
Shallow embedding of the financial core of the brokerage backend
(`src/app.js`): the job-payment endpoint `POST /jobs/:job_id/pay`,
the capped deposit endpoint `POST /balances/deposit/:userId`, and the
two admin report endpoints `GET /admin/best-profession` and
`GET /admin/best-clients`.

Monetary amounts are modelled as rationals (the source uses JS numbers
with decimal literals such as `0.25`); timestamps as integers; the
relational store as lists of rows.  Each HTTP handler becomes a pure
function from the store and the request data to the resulting store and
an optional error; a thrown error inside the source transaction rolls
everything back, so an error outcome leaves the store unchanged.
-/

namespace Broker

/-- A row of the `profiles` table: a client or contractor account. -/
structure Profile where
  id : Nat
  type : String
  balance : ℚ
  profession : String
  firstName : String
  lastName : String
deriving Repr, DecidableEq

/-- A row of the `contracts` table, binding one client and one contractor. -/
structure Contract where
  id : Nat
  ClientId : Nat
  ContractorId : Nat
  status : String
  createdAt : Int
deriving Repr, DecidableEq

/-- A row of the `jobs` table: a priced unit of work under a contract. -/
structure Job where
  id : Nat
  ContractId : Nat
  price : ℚ
  paid : Bool
  paymentDate : Option Int
deriving Repr, DecidableEq

/-- The ledger store: the three tables the core operates on. -/
structure Store where
  profiles : List Profile
  contracts : List Contract
  jobs : List Job
deriving Repr, DecidableEq

/-- The business errors the handlers can report with HTTP 400 (or an
internal failure).  Each constructor corresponds to one thrown message in
the source: `JobNotFound` = "Job not found", `AlreadyPaid` =
"Already paid", `WrongJobId` = "Wrong job id", `InsufficientFunds` =
the insufficient-balance message, `ClientNotFound` = "Client not found",
`LimitExceeded` = "Deposit amount exceeds the maximum allowed",
`MissingDateRange` = "Both start and end parameters are required",
and `Internal` for a null dereference / store failure inside the
transaction. -/
inductive ApiError where
  | JobNotFound
  | AlreadyPaid
  | WrongJobId
  | InsufficientFunds
  | ClientNotFound
  | LimitExceeded
  | MissingDateRange
  | Internal
deriving Repr, DecidableEq

/-- `Profile.findByPk`. -/
def findProfile (st : Store) (pid : Nat) : Option Profile :=
  st.profiles.find? (fun p => p.id == pid)

/-- `Contract.findByPk` (resp. the `include: [Contract]` association). -/
def findContract (st : Store) (cid : Nat) : Option Contract :=
  st.contracts.find? (fun c => c.id == cid)

/-- `Job.findByPk`. -/
def findJob (st : Store) (jid : Nat) : Option Job :=
  st.jobs.find? (fun j => j.id == jid)

/-- `client.balance -= amountToPay` on the row with the given id. -/
def debitProfile (pid : Nat) (amt : ℚ) (p : Profile) : Profile :=
  if p.id == pid then { p with balance := p.balance - amt } else p

/-- `contractor.balance += amountToPay` (also the deposit credit) on the
row with the given id. -/
def creditProfile (pid : Nat) (amt : ℚ) (p : Profile) : Profile :=
  if p.id == pid then { p with balance := p.balance + amt } else p

/-- `job.paid = true; job.paymentDate = new Date()` on the row with the
given id. -/
def markJobPaid (jid : Nat) (now : Int) (j : Job) : Job :=
  if j.id == jid then { j with paid := true, paymentDate := some now } else j

/-- The body of the `POST /jobs/:job_id/pay` transaction.  `callerId` is
`req.profile.id` (attached by the `getProfile` middleware), `now` the
clock value used for `new Date()`.  Checks happen in source order: job
lookup, paid flag, contract-derived authorization, client balance; the
successful branch debits the client, credits the contractor and marks
the job paid in one atomic commit.  A missing contract row or contractor
row would be a null dereference in the source, modelled as `Internal`. -/
def pay (st : Store) (callerId jobId : Nat) (now : Int) :
    Except ApiError Store :=
  match findJob st jobId with
  | none => .error .JobNotFound
  | some job =>
    if job.paid then .error .AlreadyPaid
    else
      match findContract st job.ContractId with
      | none => .error .Internal
      | some contract =>
        if contract.ClientId ≠ callerId then .error .WrongJobId
        else
          match findProfile st contract.ClientId with
          | none => .error .Internal
          | some client =>
            if client.balance < job.price then .error .InsufficientFunds
            else
              match findProfile st contract.ContractorId with
              | none => .error .Internal
              | some _ =>
                .ok { st with
                  profiles :=
                    (st.profiles.map
                        (debitProfile contract.ClientId job.price)).map
                      (creditProfile contract.ContractorId job.price),
                  jobs := st.jobs.map (markJobPaid jobId now) }

/-- The pay endpoint as observed by the caller: on success the committed
store, on a thrown error the rolled-back (unchanged) store together with
the error. -/
def payStep (st : Store) (callerId jobId : Nat) (now : Int) :
    Store × Option ApiError :=
  match pay st callerId jobId now with
  | .ok st2 => (st2, none)
  | .error e => (st, some e)

/-- The rows of the `Job.sum('price', ...)` query in the deposit handler:
unpaid jobs inner-joined with their contract, restricted to
`Contract.ClientId = userId`. -/
def clientUnpaidJobs (st : Store) (userId : Nat) : List Job :=
  st.jobs.filter (fun j =>
    !j.paid &&
      match findContract st j.ContractId with
      | some c => c.ClientId == userId
      | none => false)

/-- `outstandingJobsAmount`: the summed price of the client's unpaid
jobs.  The source's `Job.sum` yields SQL `NULL` on an empty row set and
`0.25 * null` evaluates to `0` in JS, so the empty sum is `0` here. -/
def outstandingJobsAmount (st : Store) (userId : Nat) : ℚ :=
  ((clientUnpaidJobs st userId).map (fun j => j.price)).sum

/-- `maxDepositProcent * outstandingJobsAmount`: the deposit ceiling. -/
def maxDepositAmount (st : Store) (userId : Nat) : ℚ :=
  (0.25 : ℚ) * outstandingJobsAmount st userId

/-- The body of the `POST /balances/deposit/:userId` transaction: load
the profile ("Client not found" if absent), compute the ceiling from
outstanding unpaid work, reject when `depositAmount > maxDepositAmount`,
otherwise credit the balance. -/
def deposit (st : Store) (userId : Nat) (depositAmount : ℚ) :
    Except ApiError Store :=
  match findProfile st userId with
  | none => .error .ClientNotFound
  | some _ =>
    if maxDepositAmount st userId < depositAmount then .error .LimitExceeded
    else
      .ok { st with
        profiles := st.profiles.map (creditProfile userId depositAmount) }

/-- The deposit endpoint as observed by the caller: committed store on
success, unchanged store plus the error on failure. -/
def depositStep (st : Store) (userId : Nat) (depositAmount : ℚ) :
    Store × Option ApiError :=
  match deposit st userId depositAmount with
  | .ok st2 => (st2, none)
  | .error e => (st, some e)

/-- The request data reaching the deposit route handler.  The route is
registered without the `getProfile` middleware; `callerProfile` is
whatever identity the transport layer may carry, which the handler never
reads (it only uses the `userId` path parameter and the
`depositAmount` body field). -/
structure DepositRequest where
  callerProfile : Option Profile
  userId : Nat
  depositAmount : ℚ
deriving Repr, DecidableEq

/-- The deposit route handler applied to a request. -/
def depositHandler (st : Store) (req : DepositRequest) :
    Store × Option ApiError :=
  depositStep st req.userId req.depositAmount

/-- `jobs.paymentDate BETWEEN :start AND :end`: SQL `BETWEEN` is
inclusive on both ends and `NULL BETWEEN ...` is not true, so only jobs
with a payment date inside `[s, e]` qualify. -/
def jobInWindow (s e : Int) (j : Job) : Bool :=
  match j.paymentDate with
  | some d => s ≤ d && d ≤ e
  | none => false

/-- The profession of the contractor of the job's contract, following
the two inner joins of the best-profession query (a job whose contract
or contractor row is missing produces no row). -/
def jobProfession (st : Store) (j : Job) : Option String :=
  match findContract st j.ContractId with
  | none => none
  | some c =>
    match findProfile st c.ContractorId with
    | none => none
    | some contractor => some contractor.profession

/-- The `GROUP BY contractor.profession` keys: the distinct professions
contributing at least one joined row inside the window. -/
def professionsInWindow (st : Store) (s e : Int) : List String :=
  (st.jobs.filterMap (fun j =>
    if jobInWindow s e j then jobProfession st j else none)).dedup

/-- `SUM(jobs.price)` for one profession group of the best-profession
query. -/
def professionEarnings (st : Store) (s e : Int) (prof : String) : ℚ :=
  ((st.jobs.filter (fun j =>
      jobInWindow s e j && jobProfession st j == some prof)).map
    (fun j => j.price)).sum

/-- One comparison step of `ORDER BY earnings DESC LIMIT 1`: keep the
incumbent group unless the candidate's summed price is strictly
larger. -/
def pickBetterEarning (st : Store) (s e : Int) (best : Option String)
    (p : String) : Option String :=
  match best with
  | none => some p
  | some q =>
    if professionEarnings st s e q < professionEarnings st s e p then some p
    else best

/-- `ORDER BY earnings DESC LIMIT 1` over the profession groups: a group
with maximal summed price wins, an earlier group wins ties.  `none`
means the query returned no row (the "No data found for the specified
time range" response). -/
def bestProfession (st : Store) (s e : Int) : Option String :=
  (professionsInWindow st s e).foldl (pickBetterEarning st s e) none

/-- `GET /admin/best-profession`: both query parameters must be present,
then the read-only query runs against the unchanged store.  `.ok none`
is the "no data" response. -/
def bestProfessionEndpoint (st : Store) (s e : Option Int) :
    Store × Except ApiError (Option String) :=
  match s, e with
  | some s, some e => (st, .ok (bestProfession st s e))
  | _, _ => (st, .error .MissingDateRange)

/-- `contract.createdAt BETWEEN :start AND :end` for the best-clients
query. -/
def contractInWindow (s e : Int) (c : Contract) : Bool :=
  s ≤ c.createdAt && c.createdAt ≤ e

/-- `SUM(jobs.price)` for one client group of the best-clients query:
all jobs (paid or not) of the client's contracts created inside the
window. -/
def clientWindowSpend (st : Store) (s e : Int) (cid : Nat) : ℚ :=
  ((st.jobs.filter (fun j =>
      match findContract st j.ContractId with
      | some c => c.ClientId == cid && contractInWindow s e c
      | none => false)).map
    (fun j => j.price)).sum

/-- The `GROUP BY client.id` keys of the best-clients query. -/
def clientsInWindow (st : Store) (s e : Int) : List Nat :=
  (st.jobs.filterMap (fun j =>
    match findContract st j.ContractId with
    | some c => if contractInWindow s e c then some c.ClientId else none
    | none => none)).dedup

/-- `client.firstName || ' ' || client.lastName`. -/
def fullName (p : Profile) : String :=
  p.firstName ++ " " ++ p.lastName

/-- One row of the best-clients result: id, fullName, paid sum. -/
structure ClientRow where
  id : Nat
  fullName : String
  paid : ℚ
deriving Repr, DecidableEq

/-- Descending insertion by the `paid` column (for `ORDER BY paid
DESC`). -/
def insertRowDesc (r : ClientRow) : List ClientRow → List ClientRow
  | [] => [r]
  | x :: xs => if x.paid < r.paid then r :: x :: xs else x :: insertRowDesc r xs

/-- Descending sort by the `paid` column. -/
def sortRowsDesc : List ClientRow → List ClientRow
  | [] => []
  | x :: xs => insertRowDesc x (sortRowsDesc xs)

/-- The best-clients query body: group, sum, order descending, truncate
to the limit. -/
def bestClients (st : Store) (s e : Int) (queryLimit : Nat) :
    List ClientRow :=
  (sortRowsDesc ((clientsInWindow st s e).filterMap (fun cid =>
    match findProfile st cid with
    | some p => some ⟨cid, fullName p, clientWindowSpend st s e cid⟩
    | none => none))).take queryLimit

/-- `GET /admin/best-clients`: both date parameters must be present; the
`limit` parameter defaults to 2; the read-only query runs against the
unchanged store. -/
def bestClientsEndpoint (st : Store) (s e : Option Int)
    (limit : Option Nat) : Store × Except ApiError (List ClientRow) :=
  match s, e with
  | some s, some e => (st, .ok (bestClients st s e (limit.getD 2)))
  | _, _ => (st, .error .MissingDateRange)

/-- The claim-level reading of the best-profession result that groups by
contractor rather than by profession: the summed price of the window's
jobs belonging to contracts of one given contractor. -/
def contractorWindowEarnings (st : Store) (s e : Int) (pid : Nat) : ℚ :=
  ((st.jobs.filter (fun j =>
      jobInWindow s e j &&
        match findContract st j.ContractId with
        | some c => c.ContractorId == pid
        | none => false)).map
    (fun j => j.price)).sum

/-- The contractors contributing at least one joined row inside the
window, for the claim-level per-contractor reading. -/
def contractorsInWindow (st : Store) (s e : Int) : List Nat :=
  (st.jobs.filterMap (fun j =>
    if jobInWindow s e j then
      match findContract st j.ContractId with
      | some c => some c.ContractorId
      | none => none
    else none)).dedup

/-- A concrete ledger: client 1 (balance 200), contractor 2 (balance
50), bystander client 3; contract 10 between 1 and 2; unpaid job 5
(price 100) and paid job 6 (price 40, paymentDate 7) under it. -/
def stA : Store :=
  { profiles := [⟨1, "client", 200, "", "Ann", "Client"⟩,
                 ⟨2, "contractor", 50, "musician", "Bob", "Contractor"⟩,
                 ⟨3, "client", 30, "", "Eve", "Other"⟩],
    contracts := [⟨10, 1, 2, "in_progress", 0⟩],
    jobs := [⟨5, 10, 100, false, none⟩, ⟨6, 10, 40, true, some 7⟩] }

/-- The store after profile 1 pays job 5 of `stA` at time 99. -/
def stPaid : Store := (payStep stA 1 5 99).1

/-- Like `stA` but the client's balance (10) is below job 5's price
(100). -/
def stPoor : Store :=
  { profiles := [⟨1, "client", 10, "", "Ann", "Client"⟩,
                 ⟨2, "contractor", 50, "musician", "Bob", "Contractor"⟩,
                 ⟨3, "client", 30, "", "Eve", "Other"⟩],
    contracts := [⟨10, 1, 2, "in_progress", 0⟩],
    jobs := [⟨5, 10, 100, false, none⟩, ⟨6, 10, 40, true, some 7⟩] }

/-- A concrete ledger where client 1 has exactly 1000 of outstanding
unpaid work, so the deposit ceiling is 250. -/
def stDep : Store :=
  { profiles := [⟨1, "client", 0, "", "Ann", "Client"⟩],
    contracts := [⟨10, 1, 2, "in_progress", 0⟩],
    jobs := [⟨5, 10, 1000, false, none⟩] }

/-- A concrete ledger where client 1 (balance 100) has no unpaid jobs at
all, so the outstanding sum is empty. -/
def stNoJobs : Store :=
  { profiles := [⟨1, "client", 100, "", "Ann", "Client"⟩],
    contracts := [⟨10, 1, 2, "in_progress", 0⟩],
    jobs := [] }

/-- A concrete ledger with two paid jobs inside the window `[0, 10]`:
100 for profession "A" (contractor 2) and 50 for profession "B"
(contractor 3). -/
def stProf : Store :=
  { profiles := [⟨1, "client", 0, "", "Ann", "Client"⟩,
                 ⟨2, "contractor", 0, "A", "Bob", "One"⟩,
                 ⟨3, "contractor", 0, "B", "Cid", "Two"⟩],
    contracts := [⟨10, 1, 2, "in_progress", 0⟩, ⟨11, 1, 3, "in_progress", 0⟩],
    jobs := [⟨5, 10, 100, true, some 5⟩, ⟨6, 11, 50, true, some 6⟩] }

/-- A concrete ledger where two contractors (2 and 3, 60 each) share
profession "P" while contractor 4 (profession "Q") earns 100 alone: the
per-profession sums are P = 120 and Q = 100, but the single
highest-earning contractor is 4. -/
def stShared : Store :=
  { profiles := [⟨1, "client", 0, "", "Ann", "Client"⟩,
                 ⟨2, "contractor", 0, "P", "Bob", "One"⟩,
                 ⟨3, "contractor", 0, "P", "Cid", "Two"⟩,
                 ⟨4, "contractor", 0, "Q", "Dan", "Three"⟩],
    contracts := [⟨10, 1, 2, "in_progress", 0⟩,
                  ⟨11, 1, 3, "in_progress", 0⟩,
                  ⟨12, 1, 4, "in_progress", 0⟩],
    jobs := [⟨5, 10, 60, true, some 1⟩,
             ⟨6, 11, 60, true, some 2⟩,
             ⟨7, 12, 100, true, some 3⟩] }

/-! Helper lemmas about row lookup after a row-wise update. -/

theorem find?_map_key {α : Type} (key : α → Nat) (g : α → α) (k : Nat)
    (hg : ∀ a, key (g a) = key a) (l : List α) :
    (l.map g).find? (fun a => key a == k) =
      (l.find? (fun a => key a == k)).map g := by
  induction l with
  | nil => rfl
  | cons a t ih =>
    by_cases h : key a = k
    · simp [List.find?_cons, hg, h]
    · simp [List.find?_cons, hg, h, ih]

theorem debitProfile_id (pid : Nat) (amt : ℚ) (p : Profile) :
    (debitProfile pid amt p).id = p.id := by
  unfold debitProfile; split <;> rfl

theorem creditProfile_id (pid : Nat) (amt : ℚ) (p : Profile) :
    (creditProfile pid amt p).id = p.id := by
  unfold creditProfile; split <;> rfl

theorem markJobPaid_id (jid : Nat) (now : Int) (j : Job) :
    (markJobPaid jid now j).id = j.id := by
  unfold markJobPaid; split <;> rfl

theorem findProfile_debit_credit (l : List Profile) (cId tId : Nat)
    (amt : ℚ) (client : Profile) (hne : cId ≠ tId)
    (hcl : l.find? (fun p => p.id == cId) = some client) :
    ((l.map (debitProfile cId amt)).map (creditProfile tId amt)).find?
        (fun p => p.id == cId) =
      some { client with balance := client.balance - amt } := by
  have hid : client.id = cId := by
    have := List.find?_some hcl
    simpa using this
  rw [find?_map_key Profile.id (creditProfile tId amt) cId
      (creditProfile_id tId amt),
    find?_map_key Profile.id (debitProfile cId amt) cId
      (debitProfile_id cId amt), hcl]
  simp [debitProfile, creditProfile, hid, hne]

theorem findProfile_credit_after_debit (l : List Profile) (cId tId : Nat)
    (amt : ℚ) (contractor : Profile) (hne : cId ≠ tId)
    (hco : l.find? (fun p => p.id == tId) = some contractor) :
    ((l.map (debitProfile cId amt)).map (creditProfile tId amt)).find?
        (fun p => p.id == tId) =
      some { contractor with balance := contractor.balance + amt } := by
  have hid : contractor.id = tId := by
    have := List.find?_some hco
    simpa using this
  rw [find?_map_key Profile.id (creditProfile tId amt) tId
      (creditProfile_id tId amt),
    find?_map_key Profile.id (debitProfile cId amt) tId
      (debitProfile_id cId amt), hco]
  simp [debitProfile, creditProfile, hid, Ne.symm hne]

theorem findJob_markPaid (l : List Job) (jid : Nat) (now : Int) (job : Job)
    (hjob : l.find? (fun j => j.id == jid) = some job) :
    (l.map (markJobPaid jid now)).find? (fun j => j.id == jid) =
      some { job with paid := true, paymentDate := some now } := by
  have hid : job.id = jid := by
    have := List.find?_some hjob
    simpa using this
  rw [find?_map_key Job.id (markJobPaid jid now) jid
      (markJobPaid_id jid now), hjob]
  simp [markJobPaid, hid]

/-- Claim C1: a successful `Pay(callerId, jobId)` debits the client by
exactly the job's price, credits the contractor by exactly the job's
price (so the sum of the two balances is unchanged), and in the same
operation marks the job paid with its paymentDate set to the operation's
clock value. -/
theorem pay_success_transfers
    (st st2 : Store) (callerId jobId : Nat) (now : Int)
    (job : Job) (contract : Contract) (client contractor : Profile)
    (hjob : findJob st jobId = some job)
    (hcon : findContract st job.ContractId = some contract)
    (hcl : findProfile st contract.ClientId = some client)
    (hco : findProfile st contract.ContractorId = some contractor)
    (hdistinct : contract.ClientId ≠ contract.ContractorId)
    (hok : payStep st callerId jobId now = (st2, none)) :
    findProfile st2 contract.ClientId =
      some { client with balance := client.balance - job.price } ∧
    findProfile st2 contract.ContractorId =
      some { contractor with balance := contractor.balance + job.price } ∧
    (client.balance - job.price) + (contractor.balance + job.price) =
      client.balance + contractor.balance ∧
    findJob st2 jobId =
      some { job with paid := true, paymentDate := some now } := by
  unfold payStep at hok
  cases hpay : pay st callerId jobId now with
  | error e => rw [hpay] at hok; simp at hok
  | ok st3 =>
    rw [hpay] at hok
    have hst : st3 = st2 := by simpa using hok
    subst hst
    unfold pay at hpay
    rw [hjob] at hpay
    simp only [hcon, hcl, hco] at hpay
    split_ifs at hpay with h1 h2 h3
    rw [Except.ok.injEq] at hpay
    subst hpay
    refine ⟨?_, ?_, by ring, ?_⟩
    · simpa [findProfile, List.map_map] using
        findProfile_debit_credit st.profiles contract.ClientId
          contract.ContractorId job.price client hdistinct hcl
    · simpa [findProfile, List.map_map] using
        findProfile_credit_after_debit st.profiles contract.ClientId
          contract.ContractorId job.price contractor hdistinct hco
    · simpa [findJob] using findJob_markPaid st.jobs jobId now job hjob

/-- Witness for C1: in `stA`, profile 1 pays the unpaid job 5 (price
100) at time 99; afterwards the client holds 100, the contractor 150,
the balance sum is unchanged, and job 5 is paid with paymentDate 99. -/
theorem pay_success_transfers_witness :
    findProfile stPaid 1 = some ⟨1, "client", 100, "", "Ann", "Client"⟩ ∧
    findProfile stPaid 2 =
      some ⟨2, "contractor", 150, "musician", "Bob", "Contractor"⟩ ∧
    ((200 : ℚ) - 100) + ((50 : ℚ) + 100) = 200 + 50 ∧
    findJob stPaid 5 = some ⟨5, 10, 100, true, some 99⟩ := by
  with_unfolding_all exact
    (pay_success_transfers stA stPaid 1 5 99
      ⟨5, 10, 100, false, none⟩ ⟨10, 1, 2, "in_progress", 0⟩
      ⟨1, "client", 200, "", "Ann", "Client"⟩
      ⟨2, "contractor", 50, "musician", "Bob", "Contractor"⟩
      (by decide) (by decide) (by decide) (by decide) (by decide)
      (by decide))

/-- Claim C2: paying a job whose paid flag is already set fails with the
InvalidState error "Already paid" for any caller, and the store (every
balance and every job field) is unchanged. -/
theorem pay_already_paid (st : Store) (callerId jobId : Nat) (now : Int)
    (job : Job) (hjob : findJob st jobId = some job)
    (hpaid : job.paid = true) :
    payStep st callerId jobId now = (st, some ApiError.AlreadyPaid) := by
  unfold payStep pay
  rw [hjob]
  simp [hpaid]

/-- Witness for C2: paying the already-paid job 6 of `stA` as the
bystander profile 3 fails with "Already paid" and leaves the store
untouched. -/
theorem pay_already_paid_witness :
    payStep stA 3 6 0 = (stA, some ApiError.AlreadyPaid) :=
  pay_already_paid stA 3 6 0 ⟨6, 10, 40, true, some 7⟩ (by decide) (by decide)

/-- Claim C4: paying an unpaid job as a caller different from the owning
contract's ClientId fails with the Unauthorized error "Wrong job id" and
the store is unchanged: only the contract's client can pay for its
jobs. -/
theorem pay_wrong_caller (st : Store) (callerId jobId : Nat) (now : Int)
    (job : Job) (contract : Contract)
    (hjob : findJob st jobId = some job) (hpaid : job.paid = false)
    (hcon : findContract st job.ContractId = some contract)
    (hne : contract.ClientId ≠ callerId) :
    payStep st callerId jobId now = (st, some ApiError.WrongJobId) := by
  unfold payStep pay
  rw [hjob]
  simp [hpaid, hcon, hne]

/-- Witness for C4: profile 3 attempting to pay the unpaid job 5 of
`stA` (whose contract's client is profile 1) fails with "Wrong job id"
and leaves the store untouched. -/
theorem pay_wrong_caller_witness :
    payStep stA 3 5 0 = (stA, some ApiError.WrongJobId) :=
  pay_wrong_caller stA 3 5 0 ⟨5, 10, 100, false, none⟩
    ⟨10, 1, 2, "in_progress", 0⟩ (by decide) (by decide) (by decide)
    (by decide)

/-- Counterexample to C3 as stated: in `stPoor`, job 5 is unpaid and the
client's balance (10) is strictly below the price (100), yet paying as
the unauthorized caller 3 fails with "Wrong job id", not with
InsufficientFunds — the authorization check runs first, so the claimed
equivalence does not hold for every caller. -/
theorem pay_insufficient_iff_counterexample :
    findJob stPoor 5 = some ⟨5, 10, 100, false, none⟩ ∧
    (⟨5, 10, 100, false, none⟩ : Job).paid = false ∧
    findContract stPoor 10 = some ⟨10, 1, 2, "in_progress", 0⟩ ∧
    findProfile stPoor 1 = some ⟨1, "client", 10, "", "Ann", "Client"⟩ ∧
    ((10 : ℚ) < 100) ∧
    payStep stPoor 3 5 0 = (stPoor, some ApiError.WrongJobId) ∧
    some ApiError.WrongJobId ≠ some ApiError.InsufficientFunds := by
  decide

/-- Claim C3 (amended): for an unpaid job paid by the owning contract's
client, the call fails with InsufficientFunds exactly when the client's
balance is strictly below the job's price (a balance equal to the price
is sufficient), and on that failure the store is unchanged. -/
theorem pay_insufficientFunds_iff (st : Store) (callerId jobId : Nat)
    (now : Int) (job : Job) (contract : Contract) (client : Profile)
    (hjob : findJob st jobId = some job) (hpaid : job.paid = false)
    (hcon : findContract st job.ContractId = some contract)
    (hcaller : contract.ClientId = callerId)
    (hcl : findProfile st contract.ClientId = some client) :
    ((payStep st callerId jobId now).2 = some ApiError.InsufficientFunds ↔
      client.balance < job.price) ∧
    (client.balance < job.price →
      payStep st callerId jobId now =
        (st, some ApiError.InsufficientFunds)) := by
  subst hcaller
  by_cases hb : client.balance < job.price
  · have hres : payStep st contract.ClientId jobId now =
        (st, some ApiError.InsufficientFunds) := by
      unfold payStep pay
      rw [hjob]
      simp [hpaid, hcon, hcl, hb]
    exact ⟨by rw [hres]; simp [hb], fun _ => hres⟩
  · have hres : (payStep st contract.ClientId jobId now).2 ≠
        some ApiError.InsufficientFunds := by
      unfold payStep pay
      rw [hjob]
      cases hfind : findProfile st contract.ContractorId <;>
        simp [hpaid, hcon, hcl, hb, hfind]
    exact ⟨⟨fun h => absurd h hres, fun h => absurd h hb⟩,
      fun h => absurd h hb⟩

/-- Witness for the amended C3: in `stPoor` the client itself (profile
1, balance 10) tries to pay job 5 (price 100) and fails with
InsufficientFunds, the store unchanged. -/
theorem pay_insufficientFunds_iff_witness :
    ((payStep stPoor 1 5 0).2 = some ApiError.InsufficientFunds ↔
      (10 : ℚ) < 100) ∧
    ((10 : ℚ) < 100 →
      payStep stPoor 1 5 0 = (stPoor, some ApiError.InsufficientFunds)) :=
  pay_insufficientFunds_iff stPoor 1 5 0 ⟨5, 10, 100, false, none⟩
    ⟨10, 1, 2, "in_progress", 0⟩ ⟨1, "client", 10, "", "Ann", "Client"⟩
    (by decide) (by decide) (by decide) (by decide) (by decide)

/-- Row lookup after the deposit credit. -/
theorem findProfile_credit (l : List Profile) (pid : Nat) (amt : ℚ)
    (p : Profile) (h : l.find? (fun q => q.id == pid) = some p) :
    (l.map (creditProfile pid amt)).find? (fun q => q.id == pid) =
      some { p with balance := p.balance + amt } := by
  have hid : p.id = pid := by simpa using List.find?_some h
  rw [find?_map_key Profile.id (creditProfile pid amt) pid
    (creditProfile_id pid amt), h]
  simp [creditProfile, hid]

/-- Claim C5: for an existing client, the deposit fails with
LimitExceeded exactly when the amount strictly exceeds 0.25 times the
outstanding unpaid-job sum; at or below the ceiling it succeeds and
credits the balance by exactly the amount; on the failure the store is
unchanged. -/
theorem deposit_limit_iff (st : Store) (userId : Nat) (amt : ℚ)
    (client : Profile) (hcl : findProfile st userId = some client) :
    ((depositStep st userId amt).2 = some ApiError.LimitExceeded ↔
      maxDepositAmount st userId < amt) ∧
    (maxDepositAmount st userId < amt →
      depositStep st userId amt = (st, some ApiError.LimitExceeded)) ∧
    (amt ≤ maxDepositAmount st userId →
      (depositStep st userId amt).2 = none ∧
      findProfile (depositStep st userId amt).1 userId =
        some { client with balance := client.balance + amt }) := by
  by_cases hb : maxDepositAmount st userId < amt
  · have hres : depositStep st userId amt =
        (st, some ApiError.LimitExceeded) := by
      unfold depositStep deposit
      rw [hcl]
      simp [hb]
    exact ⟨by rw [hres]; simp [hb], fun _ => hres,
      fun h => absurd hb (not_lt.mpr h)⟩
  · have hres : depositStep st userId amt =
        ({ st with profiles := st.profiles.map (creditProfile userId amt) },
          none) := by
      unfold depositStep deposit
      rw [hcl]
      simp [hb]
    refine ⟨by rw [hres]; simp [hb], fun h => absurd h hb, fun _ => ?_⟩
    rw [hres]
    exact ⟨rfl, by
      simpa [findProfile] using findProfile_credit st.profiles userId amt
        client hcl⟩

/-- Witness for C5: in `stDep` (outstanding 1000, ceiling 250) a deposit
of 250 succeeds and credits the balance to 250, while a deposit of
250.01 fails with LimitExceeded and leaves the store unchanged. -/
theorem deposit_limit_iff_witness :
    ((depositStep stDep 1 250).2 = none ∧
      findProfile (depositStep stDep 1 250).1 1 =
        some ⟨1, "client", 250, "", "Ann", "Client"⟩) ∧
    depositStep stDep 1 (250.01 : ℚ) =
      (stDep, some ApiError.LimitExceeded) := by
  with_unfolding_all exact
    (⟨(deposit_limit_iff stDep 1 250 ⟨1, "client", 0, "", "Ann", "Client"⟩
        (by decide)).2.2 (by decide),
      (deposit_limit_iff stDep 1 (250.01 : ℚ)
        ⟨1, "client", 0, "", "Ann", "Client"⟩ (by decide)).2.1 (by decide)⟩)

/-- Claim C6: for an existing client with no unpaid jobs the outstanding
sum is zero (the empty sum is zero, not an error), so the ceiling is
zero and any strictly positive deposit is rejected with
LimitExceeded, the store unchanged. -/
theorem deposit_zero_outstanding (st : Store) (userId : Nat) (amt : ℚ)
    (client : Profile) (hcl : findProfile st userId = some client)
    (hnone : clientUnpaidJobs st userId = []) (hpos : 0 < amt) :
    outstandingJobsAmount st userId = 0 ∧
    depositStep st userId amt = (st, some ApiError.LimitExceeded) := by
  have hout : outstandingJobsAmount st userId = 0 := by
    unfold outstandingJobsAmount
    rw [hnone]
    simp
  have hmax : maxDepositAmount st userId < amt := by
    unfold maxDepositAmount
    rw [hout]
    simpa using hpos
  refine ⟨hout, ?_⟩
  unfold depositStep deposit
  rw [hcl]
  simp [hmax]

/-- Witness for C6: client 1 of `stNoJobs` has no unpaid jobs; the
outstanding sum is 0 and a deposit of 5 is rejected with
LimitExceeded. -/
theorem deposit_zero_outstanding_witness :
    outstandingJobsAmount stNoJobs 1 = 0 ∧
    depositStep stNoJobs 1 5 = (stNoJobs, some ApiError.LimitExceeded) :=
  deposit_zero_outstanding stNoJobs 1 5
    ⟨1, "client", 100, "", "Ann", "Client"⟩ (by decide) (by decide)
    (by decide)

/-- Claim C9: the deposit handler never checks `amount > 0`: for any
existing client and any amount at or below the ceiling — zero and
negative amounts included — the deposit succeeds and adds the amount to
the balance, so a negative deposit decreases it. -/
theorem deposit_no_lower_bound (st : Store) (userId : Nat) (amt : ℚ)
    (client : Profile) (hcl : findProfile st userId = some client)
    (hle : amt ≤ maxDepositAmount st userId) :
    (depositStep st userId amt).2 = none ∧
    findProfile (depositStep st userId amt).1 userId =
      some { client with balance := client.balance + amt } := by
  have hres : depositStep st userId amt =
      ({ st with profiles := st.profiles.map (creditProfile userId amt) },
        none) := by
    unfold depositStep deposit
    rw [hcl]
    simp [not_lt.mpr hle]
  rw [hres]
  exact ⟨rfl, by
    simpa [findProfile] using findProfile_credit st.profiles userId amt
      client hcl⟩

/-- Witness for C9: in `stNoJobs` (ceiling 0, client balance 100) a
deposit of -5 succeeds and drops the balance to 95. -/
theorem deposit_no_lower_bound_witness :
    (depositStep stNoJobs 1 (-5)).2 = none ∧
    findProfile (depositStep stNoJobs 1 (-5)).1 1 =
      some ⟨1, "client", 95, "", "Ann", "Client"⟩ := by
  with_unfolding_all exact
    (deposit_no_lower_bound stNoJobs 1 (-5)
      ⟨1, "client", 100, "", "Ann", "Client"⟩ (by decide) (by decide))

/-- Claim C10: the deposit route carries no caller-identity middleware
and its handler never reads a caller identity: two requests agreeing on
the target user and the amount produce identical outcomes on any store,
whatever identities they carry. -/
theorem deposit_ignores_caller (st : Store) (r1 r2 : DepositRequest)
    (hu : r1.userId = r2.userId)
    (ha : r1.depositAmount = r2.depositAmount) :
    depositHandler st r1 = depositHandler st r2 := by
  unfold depositHandler
  rw [hu, ha]

/-- Witness for C10: a request carrying contractor 2's identity and a
request carrying no identity at all, both depositing 3 for user 1,
produce the same outcome on `stNoJobs`. -/
theorem deposit_ignores_caller_witness :
    depositHandler stNoJobs
        ⟨some ⟨2, "contractor", 0, "", "Mallory", "X"⟩, 1, 3⟩ =
      depositHandler stNoJobs ⟨none, 1, 3⟩ :=
  deposit_ignores_caller stNoJobs
    ⟨some ⟨2, "contractor", 0, "", "Mallory", "X"⟩, 1, 3⟩ ⟨none, 1, 3⟩
    rfl rfl

/-- Claim C8: on both report endpoints a missing start or end parameter
yields the InvalidInput error "Both start and end parameters are
required"; this holds for every store and returns the store unchanged,
so no query against the ledger is involved. -/
theorem reports_require_window (st : Store) (s e : Option Int)
    (limit : Option Nat) (h : s = none ∨ e = none) :
    bestProfessionEndpoint st s e =
      (st, .error ApiError.MissingDateRange) ∧
    bestClientsEndpoint st s e limit =
      (st, .error ApiError.MissingDateRange) := by
  rcases h with h | h
  · subst h
    exact ⟨rfl, rfl⟩
  · subst h
    cases s <;> exact ⟨rfl, rfl⟩

/-- Invariant of the `ORDER BY earnings DESC LIMIT 1` fold: a returned
group is the accumulator or a list member, and its summed price
dominates every list member and any accumulator. -/
theorem foldl_pickBetterEarning (st : Store) (s e : Int) :
    ∀ (l : List String) (acc : Option String) (p : String),
      l.foldl (pickBetterEarning st s e) acc = some p →
      (acc = some p ∨ p ∈ l) ∧
      (∀ q ∈ l, professionEarnings st s e q ≤ professionEarnings st s e p) ∧
      (∀ b, acc = some b →
        professionEarnings st s e b ≤ professionEarnings st s e p) := by
  intro l
  induction l with
  | nil =>
    intro acc p h
    rw [List.foldl_nil] at h
    refine ⟨Or.inl h, by simp, fun b hb => ?_⟩
    rw [h] at hb
    cases hb
    exact le_refl _
  | cons q t ih =>
    intro acc p h
    rw [List.foldl_cons] at h
    obtain ⟨h1, h2, h3⟩ := ih (pickBetterEarning st s e acc q) p h
    cases acc with
    | none =>
      simp only [pickBetterEarning] at h1 h3
      refine ⟨Or.inr ?_, ?_, ?_⟩
      · rcases h1 with h1 | h1
        · cases h1
          exact List.mem_cons_self q t
        · exact List.mem_cons_of_mem q h1
      · intro r hr
        rcases List.mem_cons.mp hr with hr | hr
        · subst hr
          exact h3 r rfl
        · exact h2 r hr
      · intro b hb
        cases hb
    | some b0 =>
      simp only [pickBetterEarning] at h1 h3
      by_cases hlt : professionEarnings st s e b0 < professionEarnings st s e q
      · rw [if_pos hlt] at h1 h3
        refine ⟨?_, ?_, ?_⟩
        · rcases h1 with h1 | h1
          · cases h1
            exact Or.inr (List.mem_cons_self _ _)
          · exact Or.inr (List.mem_cons_of_mem q h1)
        · intro r hr
          rcases List.mem_cons.mp hr with hr | hr
          · subst hr
            exact h3 r rfl
          · exact h2 r hr
        · intro b hb
          cases hb
          exact le_of_lt (lt_of_lt_of_le hlt (h3 q rfl))
      · rw [if_neg hlt] at h1 h3
        refine ⟨?_, ?_, ?_⟩
        · rcases h1 with h1 | h1
          · exact Or.inl h1
          · exact Or.inr (List.mem_cons_of_mem q h1)
        · intro r hr
          rcases List.mem_cons.mp hr with hr | hr
          · subst hr
            exact le_trans (not_lt.mp hlt) (h3 b0 rfl)
          · exact h2 r hr
        · intro b hb
          cases hb
          exact h3 _ rfl

/-- Claim C7 (amended): with both bounds present, the best-profession
query runs read-only (the store is returned unchanged); when no job's
paymentDate falls inside the inclusive window it reports "no data"
(`none`) rather than an error; and any returned profession is one of the
window's profession groups and its per-profession summed price (jobs
grouped by the profession of the contract's contractor, contractors of
the same profession pooled together) is maximal among all groups. -/
theorem bestProfession_max (st : Store) (s e : Int) :
    bestProfessionEndpoint st (some s) (some e) =
      (st, .ok (bestProfession st s e)) ∧
    ((∀ j ∈ st.jobs, jobInWindow s e j = false) →
      bestProfession st s e = none) ∧
    (∀ p, bestProfession st s e = some p →
      p ∈ professionsInWindow st s e ∧
      ∀ q ∈ professionsInWindow st s e,
        professionEarnings st s e q ≤ professionEarnings st s e p) := by
  refine ⟨rfl, ?_, ?_⟩
  · intro hall
    unfold bestProfession
    have hempty : professionsInWindow st s e = [] := by
      unfold professionsInWindow
      rw [List.dedup_eq_nil, List.filterMap_eq_nil_iff]
      intro j hj
      simp [hall j hj]
    rw [hempty]
    rfl
  · intro p hp
    obtain ⟨h1, h2, -⟩ :=
      foldl_pickBetterEarning st s e (professionsInWindow st s e) none p hp
    rcases h1 with h1 | h1
    · cases h1
    · exact ⟨h1, h2⟩

/-- Witness for the amended C7: on `stProf` (jobs of 100 for profession
"A" and 50 for profession "B" paid inside `[0, 10]`) the endpoint
answers without touching the store, and "A" is a window group whose
summed price dominates every group. -/
theorem bestProfession_max_witness :
    bestProfessionEndpoint stProf (some 0) (some 10) =
      (stProf, .ok (bestProfession stProf 0 10)) ∧
    ("A" ∈ professionsInWindow stProf 0 10 ∧
      ∀ q ∈ professionsInWindow stProf 0 10,
        professionEarnings stProf 0 10 q ≤
          professionEarnings stProf 0 10 "A") := by
  with_unfolding_all exact
    ⟨(bestProfession_max stProf 0 10).1,
      (bestProfession_max stProf 0 10).2.2 "A" (by decide)⟩

/-- Counterexample to C7 as stated: in `stShared` the window `[0, 10]`
holds paid jobs of 60 (contractor 2, profession "P"), 60 (contractor 3,
profession "P") and 100 (contractor 4, profession "Q").  Contractor 4
out-earns every other single contractor, and its profession is "Q", yet
the query — which groups by profession, pooling the two "P" contractors
to 120 — returns "P": the result is not the profession of the
highest-earning contractor. -/
theorem bestProfession_counterexample :
    bestProfession stShared 0 10 = some "P" ∧
    4 ∈ contractorsInWindow stShared 0 10 ∧
    (∀ pid ∈ contractorsInWindow stShared 0 10, pid ≠ 4 →
      contractorWindowEarnings stShared 0 10 pid <
        contractorWindowEarnings stShared 0 10 4) ∧
    (findProfile stShared 4).map Profile.profession = some "Q" ∧
    ("P" : String) ≠ "Q" := by
  with_unfolding_all decide

/-- Witness for C8: with a missing start bound both report endpoints
reject the request on `stProf`. -/
theorem reports_require_window_witness :
    bestProfessionEndpoint stProf none (some 3) =
      (stProf, .error ApiError.MissingDateRange) ∧
    bestClientsEndpoint stProf none (some 3) none =
      (stProf, .error ApiError.MissingDateRange) :=
  reports_require_window stProf none (some 3) none (Or.inl rfl)

end Broker
